import Mathlib

/-!
Verification of the CinemaTec backend aggregator (src/app.py).

The repository is a Flask service that fans out to two upstream providers
(Trakt catalog/ratings, TMDB images) and merges their responses.  We give a
shallow embedding of the pure data-flow of the code: network outcomes and
`future.result(timeout=…)` outcomes are passed in explicitly as environment
values, and each Python function becomes a Lean function over them.

Conventions of the embedding:
- `NetOutcome α` is what the wire would deliver for one HTTP request:
  `success payload` or `failure` (network error, non-2xx, requests-level
  timeout — everything `requests.exceptions.RequestException` covers).
- `FutureResult α := Except Unit α` is the outcome of a
  `future.result(timeout=…)` call: `Except.ok v` means the worker finished
  and the wait returned `v`; `Except.error ()` means the wait raised
  (`concurrent.futures.TimeoutError`), which is the only way a collected
  secondary call raises, since the request helpers never raise.
- Python truthiness of an optional mapping (`if stats:`) is `truthyMap`:
  `None` and the empty mapping are falsy.
- A movie object coming from the catalog provider always carries its
  identity fields (`ids.trakt`, `title`, optional `year`), as the primary
  responses guarantee; a search entry may or may not carry a truthy
  `movie` key (`SearchItem.movie : Option Movie`).
-/

namespace CinemaTec

/-- Outcome of one HTTP request on the wire: the provider responded with a
payload, or the request failed (network error, non-2xx status, or
requests-level timeout). -/
inductive NetOutcome (α : Type) where
  | success : α → NetOutcome α
  | failure : NetOutcome α
deriving DecidableEq

/-- Outcome of a `future.result(timeout=…)` wait: `Except.ok v` when the
worker finished in time with value `v`, `Except.error ()` when the wait
raised `TimeoutError`. -/
abbrev FutureResult (α : Type) := Except Unit α

/-- Process-wide configuration.  `TRAKT_API_KEY` is mandatory (startup
fails without it, line 26-28), so only the optional `TMDB_API_KEY`
matters for behavior. -/
structure Config where
  tmdbKey : Option String
deriving DecidableEq

/-- Identity fields of a movie object from the catalog provider
(`movie['ids']['trakt']`, `movie['title']`, `movie.get('year', '')`). -/
structure Movie where
  traktId : Nat
  title : String
  year : Option Int
deriving DecidableEq

/-- Stats payload: an opaque JSON mapping (e.g. watchers, plays). -/
abbrev StatsData := List (String × Nat)

/-- Ratings payload: an opaque JSON mapping; `get('rating', 0)` reads the
`rating` key with default 0. -/
abbrev RatingsData := List (String × Rat)

/-- `ratings.get('rating', 0)`. -/
def RatingsData.getRating (l : RatingsData) : Rat :=
  (l.lookup "rating").getD 0

/-- One entry of a TMDB `/search/movie` result list; `poster_path` may be
absent or null. -/
structure TmdbResult where
  poster_path : Option String
deriving DecidableEq

/-- TMDB `/search/movie` response body: a `results` list (a missing or
null `results` key is merged with the empty list, both being falsy). -/
structure TmdbSearch where
  results : List TmdbResult
deriving DecidableEq

/-- One entry of a Trakt `/search/movie` response.  `movie = none` models
an entry whose `movie` key is missing or falsy (`item.get('movie')`). -/
structure SearchItem where
  movie : Option Movie
deriving DecidableEq

/-- The record produced by `enhance_movie_data`: a copy of the base entry
plus the optional merged fields `stats`, `ratings`, `posterUrl`. -/
structure EnhancedItem where
  base : SearchItem
  stats : Option StatsData := none
  ratings : Option RatingsData := none
  posterUrl : Option String := none
deriving DecidableEq

/-- The record produced by `enhance_related_movie`: a copy of the base
movie plus `rating` (always set by the code on every path through the
try/except) and optional `posterUrl`.  `rating` is `Option` so that the
embedding can express its presence, not assume it. -/
structure RelatedRecord where
  base : Movie
  rating : Option Rat := none
  posterUrl : Option String := none
deriving DecidableEq

/-- Python truthiness of an optional mapping: `None` and the empty
mapping are falsy. -/
def truthyMap {α : Type} (o : Option (List (String × α))) : Bool :=
  match o with
  | none => false
  | some l => !l.isEmpty

/-- `make_trakt_request` (app.py lines 36-51): returns the parsed JSON on
success and `None` on any `RequestException`; it never raises past its
boundary. -/
def make_trakt_request {α : Type} (net : NetOutcome α) : Option α :=
  match net with
  | .success a => some a
  | .failure => none

/-- `make_tmdb_request` (app.py lines 53-69): returns `None` immediately
when no TMDB key is configured, otherwise performs the request and
returns the payload or `None` on failure.  The second component records
whether a network call was issued. -/
def make_tmdb_request {α : Type} (cfg : Config) (net : NetOutcome α) :
    Option α × Bool :=
  match cfg.tmdbKey with
  | none => (none, false)
  | some _ =>
    match net with
    | .success a => (some a, true)
    | .failure => (none, true)

def TMDB_IMAGE_BASE : String := "https://image.tmdb.org/t/p/w500"

/-- Poster resolution (app.py lines 103-106 and 134-137): if the TMDB
payload is present with a truthy `results` list whose first entry has a
truthy `poster_path`, compose the poster URL; otherwise nothing. -/
def posterFromTmdb (d : Option TmdbSearch) : Option String :=
  match d with
  | none => none
  | some t =>
    match t.results with
    | [] => none
    | r :: _ =>
      match r.poster_path with
      | none => none
      | some p => if p = "" then none else some (TMDB_IMAGE_BASE ++ p)

/-- Per-entry environment for `enhance_movie_data`: the outcome of each
of the three `future.result(timeout=3)` waits, each carrying the wire
outcome its worker saw. -/
structure EnhanceEnv where
  statsNet : FutureResult (NetOutcome StatsData)
  ratingsNet : FutureResult (NetOutcome RatingsData)
  posterNet : FutureResult (NetOutcome TmdbSearch)

/-- `enhance_movie_data` (app.py lines 71-111).  Control flow of the
source, faithfully: `movie = movie_item['movie']` is evaluated outside
the try block, so a missing `movie` key raises to the caller (`none`).
Inside the try, the stats wait (line 92) and ratings wait (line 93) are
collected before any merging (lines 95-98); a raise at either wait jumps
to the except handler with nothing merged.  The poster wait (line 102)
comes after the stats/ratings merges, so a raise there keeps them.  The
except handler only logs; the copied record is returned either way. -/
def enhance_movie_data (cfg : Config) (env : EnhanceEnv) (item : SearchItem) :
    Option EnhancedItem :=
  match item.movie with
  | none => none
  | some _ =>
    let e : EnhancedItem := { base := item }
    some (match env.statsNet with
      | .error _ => e
      | .ok sNet =>
        match env.ratingsNet with
        | .error _ => e
        | .ok rNet =>
          let stats := make_trakt_request sNet
          let ratings := make_trakt_request rNet
          let e1 := if truthyMap stats then { e with stats := stats } else e
          let e2 := if truthyMap ratings then { e1 with ratings := ratings } else e1
          match cfg.tmdbKey with
          | none => e2
          | some _ =>
            match env.posterNet with
            | .error _ => e2
            | .ok pNet =>
              match posterFromTmdb (make_tmdb_request cfg pNet).fst with
              | none => e2
              | some url => { e2 with posterUrl := some url })

/-- Per-entry environment for `enhance_related_movie`: the outcomes of
the two `future.result(timeout=2)` waits. -/
structure RelatedEnv where
  ratingsNet : FutureResult (NetOutcome RatingsData)
  posterNet : FutureResult (NetOutcome TmdbSearch)

/-- `enhance_related_movie` (app.py lines 113-143).  The ratings wait
(line 129) feeds `rating = ratings.get('rating', 0) if ratings else 0`
(line 130); the poster wait follows.  Any raise inside the try lands in
the except handler, which sets `rating = 0` on the record — overwriting
a rating already merged at line 130 when the raise came from the poster
wait. -/
def enhance_related_movie (cfg : Config) (env : RelatedEnv) (movie : Movie) :
    RelatedRecord :=
  let e : RelatedRecord := { base := movie }
  match env.ratingsNet with
  | .error _ => { e with rating := some 0 }
  | .ok rNet =>
    let rv : Rat :=
      match make_trakt_request rNet with
      | none => 0
      | some l => if l.isEmpty then 0 else l.getRating
    let e1 := { e with rating := some rv }
    match cfg.tmdbKey with
    | none => e1
    | some _ =>
      match env.posterNet with
      | .error _ => { e1 with rating := some 0 }
      | .ok pNet =>
        match posterFromTmdb (make_tmdb_request cfg pNet).fst with
        | none => e1
        | some url => { e1 with posterUrl := some url }

/-- The result-collection loop of the batch endpoints (app.py lines
169-174 and 257-262): iterate the futures in submission order; each
`future.result(timeout=…)` either yields a record, which is appended, or
raises, in which case the entry is skipped and the loop continues.
`env i = none` models a raise at entry `i` (batch-level timeout, or an
exception that escaped the worker).  A `none` from
`enhance_movie_data` itself (missing `movie` key) also raises at the
wait, hence `Option.bind`. -/
def collectSearchAux (cfg : Config) (env : Nat → Option EnhanceEnv) :
    Nat → List SearchItem → List EnhancedItem
  | _, [] => []
  | i, it :: rest =>
    match (env i).bind (fun e => enhance_movie_data cfg e it) with
    | none => collectSearchAux cfg env (i + 1) rest
    | some r => r :: collectSearchAux cfg env (i + 1) rest

def collectSearch (cfg : Config) (env : Nat → Option EnhanceEnv)
    (movies : List SearchItem) : List EnhancedItem :=
  collectSearchAux cfg env 0 movies

/-- Result-collection loop of the related-movies endpoint;
`enhance_related_movie` is total on a `Movie`, so only a batch-level
raise (`env i = none`) drops an entry. -/
def collectRelatedAux (cfg : Config) (env : Nat → Option RelatedEnv) :
    Nat → List Movie → List RelatedRecord
  | _, [] => []
  | i, mv :: rest =>
    match (env i).map (fun e => enhance_related_movie cfg e mv) with
    | none => collectRelatedAux cfg env (i + 1) rest
    | some r => r :: collectRelatedAux cfg env (i + 1) rest

def collectRelated (cfg : Config) (env : Nat → Option RelatedEnv)
    (movies : List Movie) : List RelatedRecord :=
  collectRelatedAux cfg env 0 movies

/-- JSON body of a response, by shape. -/
inductive RespBody where
  | items : List EnhancedItem → RespBody
  | rawItems : List SearchItem → RespBody
  | relatedItems : List RelatedRecord → RespBody
  | rawMovies : List Movie → RespBody
  | record : EnhancedItem → RespBody
  | movieDetail : Option Movie → RespBody
  | errMsg : String → RespBody
deriving DecidableEq

/-- A response plus the number of top-level catalog-provider requests the
handler issued (0 when the handler returned before any upstream call). -/
structure EndpointResult where
  status : Nat
  body : RespBody
  traktCalls : Nat
deriving DecidableEq

/-- `query.strip()`: remove leading and trailing whitespace.  (Embedded
over the character list so that it evaluates; `String.trim` agrees but
does not reduce definitionally.) -/
def pyStrip (s : String) : String :=
  String.mk
    (((s.data.dropWhile Char.isWhitespace).reverse.dropWhile Char.isWhitespace).reverse)

/-- `search_movies` (app.py lines 145-183).  `rawQuery` is
`request.args.get('query', '')` (a missing parameter is the empty
string); it is stripped, and a blank query returns 400 before any
upstream call.  `if not data:` treats both `None` and the empty list as
empty.  Entries are filtered to those with a truthy `movie` key,
truncated to 10, and enhanced by the collection loop. -/
def search_movies (cfg : Config) (rawQuery : String)
    (primaryNet : NetOutcome (List SearchItem))
    (env : Nat → Option EnhanceEnv) : EndpointResult :=
  let query := pyStrip rawQuery
  if query = "" then
    { status := 400, body := .errMsg "Query parameter is required", traktCalls := 0 }
  else
    match make_trakt_request primaryNet with
    | none => { status := 200, body := .items [], traktCalls := 1 }
    | some data =>
      if data.isEmpty then { status := 200, body := .items [], traktCalls := 1 }
      else
        let movies := (data.filter (fun it => it.movie.isSome)).take 10
        { status := 200, body := .items (collectSearch cfg env movies), traktCalls := 1 }

/-- `search_movies_fast` (app.py lines 185-207): same validation and
primary search, but the movie-tagged entries are truncated to 15 and
returned with no enhancement. -/
def search_movies_fast (rawQuery : String)
    (primaryNet : NetOutcome (List SearchItem)) : EndpointResult :=
  let query := pyStrip rawQuery
  if query = "" then
    { status := 400, body := .errMsg "Query parameter is required", traktCalls := 0 }
  else
    match make_trakt_request primaryNet with
    | none => { status := 200, body := .rawItems [], traktCalls := 1 }
    | some data =>
      if data.isEmpty then { status := 200, body := .rawItems [], traktCalls := 1 }
      else
        { status := 200,
          body := .rawItems ((data.filter (fun it => it.movie.isSome)).take 15),
          traktCalls := 1 }

/-- `enhance_movie` (app.py lines 209-226): primary single-record fetch;
`None` (or a falsy body) gives a 404; otherwise the record is wrapped as
`{'movie': movie_data}` and enhanced.  The 500 branch is the outer
except, reachable only if enhancement raised. -/
def enhance_movie (cfg : Config) (primaryNet : NetOutcome Movie)
    (env : EnhanceEnv) : Nat × RespBody :=
  match make_trakt_request primaryNet with
  | none => (404, .errMsg "Movie not found")
  | some m =>
    match enhance_movie_data cfg env { movie := some m } with
    | none => (500, .errMsg "Failed to enhance movie")
    | some r => (200, .record r)

/-- `get_movie_details` (app.py lines 228-236): the primary fetch result
is passed to `jsonify` unconditionally — there is no absence check, so a
missing record is serialized as JSON `null` with status 200. -/
def get_movie_details (primaryNet : NetOutcome Movie) : Nat × RespBody :=
  (200, .movieDetail (make_trakt_request primaryNet))

/-- `get_related_movies` (app.py lines 238-271): `if not related_movies:`
returns the empty list for `None` or empty; otherwise the first 8 movies
are enhanced by the collection loop. -/
def get_related_movies (cfg : Config) (primaryNet : NetOutcome (List Movie))
    (env : Nat → Option RelatedEnv) : Nat × RespBody :=
  match make_trakt_request primaryNet with
  | none => (200, .relatedItems [])
  | some data =>
    if data.isEmpty then (200, .relatedItems [])
    else (200, .relatedItems (collectRelated cfg env (data.take 8)))

/-! ### Helper lemmas about the enhancement functions -/

/-- `enhance_movie_data` is copy-then-merge: every branch keeps the base
record it copied. -/
theorem enhance_movie_data_keeps_base (cfg : Config) (env : EnhanceEnv)
    (it : SearchItem) (r : EnhancedItem)
    (h : enhance_movie_data cfg env it = some r) : r.base = it := by
  rcases env with ⟨sN, rN, pN⟩
  rcases hm : it.movie with _ | m
  · simp [enhance_movie_data, hm] at h
  · simp only [enhance_movie_data, hm, Option.some.injEq] at h
    subst h
    cases sN <;> cases rN <;> dsimp only <;>
      repeat' first | rfl | split

/-- `enhance_movie_data` returns a record whenever the entry has a
`movie` key: no exception reaches the caller. -/
theorem enhance_movie_data_total (cfg : Config) (env : EnhanceEnv)
    (it : SearchItem) (h : it.movie.isSome = true) :
    ∃ r, enhance_movie_data cfg env it = some r := by
  rcases hm : it.movie with _ | m
  · simp [hm] at h
  · unfold enhance_movie_data
    rw [hm]
    exact ⟨_, rfl⟩

/-- `enhance_related_movie` keeps the base movie it copied. -/
theorem enhance_related_movie_keeps_base (cfg : Config) (env : RelatedEnv)
    (mv : Movie) : (enhance_related_movie cfg env mv).base = mv := by
  rcases env with ⟨rN, pN⟩
  unfold enhance_related_movie
  cases rN <;> dsimp only <;>
    repeat' first | rfl | split

/-- Python truthiness of a non-empty mapping: `if rl.isEmpty then 0 else
rl.getRating` agrees with `getRating` even on the empty mapping, whose
lookup already defaults to 0. -/
theorem ratings_default_if_empty (rl : RatingsData) :
    (if rl.isEmpty then (0 : Rat) else rl.getRating) = rl.getRating := by
  cases rl <;> rfl

/-! ### Claim theorems: per-entry enhancement -/

/-- C10: `enhance_related_movie` always produces a record carrying a
`rating` value — the fetched rating when the ratings call succeeded and
nothing later raised, and the default 0 otherwise. -/
theorem C10_rating_always_present (cfg : Config) (env : RelatedEnv) (mv : Movie) :
    ∃ q : Rat, (enhance_related_movie cfg env mv).rating = some q ∧
      (q = 0 ∨ ∃ rl, env.ratingsNet = Except.ok (NetOutcome.success rl) ∧
        q = RatingsData.getRating rl) := by
  rcases cfg with ⟨tk⟩
  rcases env with ⟨rN, pN⟩
  unfold enhance_related_movie
  rcases rN with _ | rNet
  · exact ⟨0, rfl, Or.inl rfl⟩
  · rcases rNet with rl | _
    · simp only [make_trakt_request]
      rw [ratings_default_if_empty]
      rcases tk with _ | k
      · exact ⟨rl.getRating, rfl, Or.inr ⟨rl, rfl, rfl⟩⟩
      · rcases pN with _ | pNet
        · exact ⟨0, rfl, Or.inl rfl⟩
        · rcases hpf : posterFromTmdb (make_tmdb_request ⟨some k⟩ pNet).fst with _ | url <;>
            simp only [hpf] <;>
            exact ⟨rl.getRating, rfl, Or.inr ⟨rl, rfl, rfl⟩⟩
    · rcases tk with _ | k
      · exact ⟨0, rfl, Or.inl rfl⟩
      · rcases pN with _ | pNet
        · exact ⟨0, rfl, Or.inl rfl⟩
        · rcases hpf : posterFromTmdb (make_tmdb_request ⟨some k⟩ pNet).fst with _ | url <;>
            simp only [hpf] <;>
            exact ⟨0, rfl, Or.inl rfl⟩

/-- C4: a ratings timeout makes `enhance_movie_data` return the record
with no `ratings` field (nothing merged at all, in fact), while
`enhance_related_movie` returns `rating = 0`; and `enhance_related_movie`
sets `rating = 0` on any raise inside its try block — a ratings-wait
raise, or a poster-wait raise (the poster future exists exactly when a
TMDB key is configured). -/
theorem C4_timeout_asymmetry (cfg : Config) (k : String) (it : SearchItem)
    (m : Movie) (him : it.movie = some m)
    (sN : FutureResult (NetOutcome StatsData))
    (pN pN2 : FutureResult (NetOutcome TmdbSearch))
    (rN : FutureResult (NetOutcome RatingsData)) (mv mv2 : Movie) :
    (∃ r, enhance_movie_data cfg ⟨sN, Except.error (), pN⟩ it = some r ∧
      r.ratings = none)
    ∧ (enhance_related_movie cfg ⟨Except.error (), pN2⟩ mv).rating = some 0
    ∧ (enhance_related_movie ⟨some k⟩ ⟨rN, Except.error ()⟩ mv2).rating = some 0 := by
  refine ⟨⟨{ base := it }, ?_, rfl⟩, rfl, ?_⟩
  · unfold enhance_movie_data
    rw [him]
    rcases sN with _ | sNet <;> rfl
  · unfold enhance_related_movie
    rcases rN with _ | rNet <;> rfl

/-- C4 witness. -/
theorem C4_timeout_asymmetry_witness :
    (SearchItem.mk (some ⟨1, "a", none⟩)).movie = some ⟨1, "a", none⟩ ∧
    ((∃ r, enhance_movie_data ⟨none⟩
        ⟨Except.ok NetOutcome.failure, Except.error (), Except.ok NetOutcome.failure⟩
        ⟨some ⟨1, "a", none⟩⟩ = some r ∧ r.ratings = none)
      ∧ (enhance_related_movie ⟨none⟩
          ⟨Except.error (), Except.ok NetOutcome.failure⟩ ⟨2, "b", none⟩).rating = some 0
      ∧ (enhance_related_movie ⟨some "tk"⟩
          ⟨Except.ok NetOutcome.failure, Except.error ()⟩ ⟨3, "c", none⟩).rating = some 0) :=
  ⟨rfl, C4_timeout_asymmetry ⟨none⟩ "tk" ⟨some ⟨1, "a", none⟩⟩ ⟨1, "a", none⟩ rfl
    (Except.ok NetOutcome.failure) (Except.ok NetOutcome.failure)
    (Except.ok NetOutcome.failure) (Except.ok NetOutcome.failure)
    ⟨2, "b", none⟩ ⟨3, "c", none⟩⟩

/-- C5: with no TMDB key configured, `make_tmdb_request` returns absence
without issuing a network call, and no record produced by
`enhance_movie_data` or `enhance_related_movie` carries a `posterUrl`. -/
theorem C5_no_poster_without_key (cfg : Config) (hkey : cfg.tmdbKey = none)
    (net : NetOutcome TmdbSearch) (env : EnhanceEnv) (it : SearchItem)
    (env2 : RelatedEnv) (mv : Movie) :
    make_tmdb_request cfg net = (none, false)
    ∧ (∀ r, enhance_movie_data cfg env it = some r → r.posterUrl = none)
    ∧ (enhance_related_movie cfg env2 mv).posterUrl = none := by
  rcases cfg with ⟨tk⟩
  cases hkey
  refine ⟨rfl, ?_, ?_⟩
  · intro r h
    rcases hm : it.movie with _ | m
    · simp [enhance_movie_data, hm] at h
    · simp only [enhance_movie_data, hm, Option.some.injEq] at h
      subst h
      rcases env with ⟨sN, rN, pN⟩
      cases sN <;> cases rN <;> dsimp only <;>
        repeat' first | rfl | split
  · rcases env2 with ⟨rN, pN⟩
    unfold enhance_related_movie
    cases rN <;> dsimp only <;>
      repeat' first | rfl | split

/-- C5 witness. -/
theorem C5_no_poster_without_key_witness :
    (Config.mk none).tmdbKey = none ∧
    (make_tmdb_request ⟨none⟩ (NetOutcome.success (⟨[]⟩ : TmdbSearch)) = (none, false)
      ∧ (∀ r, enhance_movie_data ⟨none⟩
          ⟨Except.ok NetOutcome.failure, Except.ok NetOutcome.failure,
            Except.ok NetOutcome.failure⟩ ⟨some ⟨1, "a", none⟩⟩ = some r →
          r.posterUrl = none)
      ∧ (enhance_related_movie ⟨none⟩
          ⟨Except.ok NetOutcome.failure, Except.ok NetOutcome.failure⟩
          ⟨2, "b", none⟩).posterUrl = none) :=
  ⟨rfl, C5_no_poster_without_key ⟨none⟩ rfl (NetOutcome.success ⟨[]⟩)
    ⟨Except.ok NetOutcome.failure, Except.ok NetOutcome.failure, Except.ok NetOutcome.failure⟩
    ⟨some ⟨1, "a", none⟩⟩
    ⟨Except.ok NetOutcome.failure, Except.ok NetOutcome.failure⟩ ⟨2, "b", none⟩⟩

/-- C6 counterexample: when the primary fetch yields no record, the
detail endpoint `get_movie_details` responds 200 with a JSON `null`
body, not 404 — the source has no absence check before `jsonify`. -/
theorem C6_detail_counterexample :
    get_movie_details NetOutcome.failure = (200, RespBody.movieDetail none)
    ∧ (get_movie_details NetOutcome.failure).fst ≠ 404 :=
  ⟨rfl, by decide⟩

/-- C6 amended: on a missing record, the enhance-on-demand endpoint
responds 404, while the detail endpoint responds 200 with a `null`
body. -/
theorem C6_missing_record (cfg : Config) (env : EnhanceEnv) :
    enhance_movie cfg NetOutcome.failure env = (404, RespBody.errMsg "Movie not found")
    ∧ get_movie_details NetOutcome.failure = (200, RespBody.movieDetail none) :=
  ⟨rfl, rfl⟩

/-- C1 counterexample: exactly one secondary call times out — the
ratings wait raises while the stats and poster calls succeed with data —
yet the returned record carries neither `stats` nor `posterUrl`: the
raise at `ratings_future.result` (line 93) jumps past all merge lines,
so the successfully fetched stats are lost, contradicting "only that
field is omitted". -/
theorem C1_counterexample :
    enhance_movie_data ⟨some "tk"⟩
      ⟨Except.ok (NetOutcome.success [("watchers", 5)]), Except.error (),
        Except.ok (NetOutcome.success ⟨[⟨some "/x.jpg"⟩]⟩)⟩
      ⟨some ⟨1, "a", none⟩⟩
      = some { base := ⟨some ⟨1, "a", none⟩⟩, stats := none, ratings := none,
               posterUrl := none }
    ∧ (some { base := ⟨some ⟨1, "a", none⟩⟩, stats := none, ratings := none,
              posterUrl := none } : Option EnhancedItem)
      ≠ some { base := ⟨some ⟨1, "a", none⟩⟩, stats := some [("watchers", 5)],
               ratings := none,
               posterUrl := some (TMDB_IMAGE_BASE ++ "/x.jpg") } := by
  exact ⟨rfl, by decide⟩

/-- C1 amended: the record is always returned and no exception reaches
the caller; when the single failing secondary call fails by returning
absence, only that field is omitted and the other fetched fields are
merged; but when a call times out at its `future.result` wait, every
field collected at or after that wait is omitted — a stats or ratings
timeout loses both `stats` and `ratings` (merging happens only after
both waits), while a poster timeout loses only `posterUrl`. -/
theorem C1_partial_merge (k : String) (it : SearchItem) (m : Movie)
    (s : StatsData) (rl : RatingsData) (p : String)
    (him : it.movie = some m) (hs : s ≠ []) (hr : rl ≠ []) (hp : p ≠ "") :
    (enhance_movie_data ⟨some k⟩
        ⟨Except.ok NetOutcome.failure, Except.ok (NetOutcome.success rl),
          Except.ok (NetOutcome.success ⟨[⟨some p⟩]⟩)⟩ it
      = some { base := it, stats := none, ratings := some rl,
               posterUrl := some (TMDB_IMAGE_BASE ++ p) })
    ∧ (enhance_movie_data ⟨some k⟩
        ⟨Except.ok (NetOutcome.success s), Except.ok NetOutcome.failure,
          Except.ok (NetOutcome.success ⟨[⟨some p⟩]⟩)⟩ it
      = some { base := it, stats := some s, ratings := none,
               posterUrl := some (TMDB_IMAGE_BASE ++ p) })
    ∧ (enhance_movie_data ⟨some k⟩
        ⟨Except.ok (NetOutcome.success s), Except.ok (NetOutcome.success rl),
          Except.ok NetOutcome.failure⟩ it
      = some { base := it, stats := some s, ratings := some rl, posterUrl := none })
    ∧ (enhance_movie_data ⟨some k⟩
        ⟨Except.error (), Except.ok (NetOutcome.success rl),
          Except.ok (NetOutcome.success ⟨[⟨some p⟩]⟩)⟩ it = some { base := it })
    ∧ (enhance_movie_data ⟨some k⟩
        ⟨Except.ok (NetOutcome.success s), Except.error (),
          Except.ok (NetOutcome.success ⟨[⟨some p⟩]⟩)⟩ it = some { base := it })
    ∧ (enhance_movie_data ⟨some k⟩
        ⟨Except.ok (NetOutcome.success s), Except.ok (NetOutcome.success rl),
          Except.error ()⟩ it
      = some { base := it, stats := some s, ratings := some rl,
               posterUrl := none }) := by
  have hs' : s.isEmpty = false := by
    cases s with
    | nil => exact absurd rfl hs
    | cons a t => rfl
  have hr' : rl.isEmpty = false := by
    cases rl with
    | nil => exact absurd rfl hr
    | cons a t => rfl
  refine ⟨?_, ?_, ?_, ?_, ?_, ?_⟩ <;>
    simp [enhance_movie_data, him, truthyMap, make_trakt_request,
      make_tmdb_request, posterFromTmdb, hs', hr', hp]

/-- C1 witness. -/
theorem C1_partial_merge_witness :
    (SearchItem.mk (some ⟨1, "a", none⟩)).movie = some ⟨1, "a", none⟩
    ∧ ([("watchers", 5)] : StatsData) ≠ []
    ∧ ([("rating", 8)] : RatingsData) ≠ []
    ∧ ("/x.jpg" : String) ≠ ""
    ∧ enhance_movie_data ⟨some "tk"⟩
        ⟨Except.ok NetOutcome.failure, Except.ok (NetOutcome.success [("rating", 8)]),
          Except.ok (NetOutcome.success ⟨[⟨some "/x.jpg"⟩]⟩)⟩ ⟨some ⟨1, "a", none⟩⟩
      = some { base := ⟨some ⟨1, "a", none⟩⟩, stats := none,
               ratings := some [("rating", 8)],
               posterUrl := some (TMDB_IMAGE_BASE ++ "/x.jpg") } :=
  ⟨rfl, by decide, by decide, by decide,
    (C1_partial_merge "tk" ⟨some ⟨1, "a", none⟩⟩ ⟨1, "a", none⟩
      [("watchers", 5)] [("rating", 8)] "/x.jpg" rfl (by decide) (by decide)
      (by decide)).1⟩

/-- C2 counterexample: `enhance_related_movie` merges the fetched rating
(8) at line 130, then the poster wait raises; the except handler (line
141) sets `rating = 0`, overwriting the already-set field — so a later
failed secondary call does remove a previously merged value. -/
theorem C2_counterexample :
    enhance_related_movie ⟨some "tk"⟩
      ⟨Except.ok (NetOutcome.success [("rating", 8)]), Except.error ()⟩
      ⟨1, "a", none⟩
      = { base := ⟨1, "a", none⟩, rating := some 0, posterUrl := none }
    ∧ (enhance_related_movie ⟨some "tk"⟩
        ⟨Except.ok (NetOutcome.success [("rating", 8)]), Except.error ()⟩
        ⟨1, "a", none⟩).rating
      ≠ some (RatingsData.getRating [("rating", 8)]) := by
  exact ⟨rfl, by decide⟩

/-- C2 amended: in `enhance_movie_data`, neither an absent secondary
result nor a poster timeout removes a field already merged during the
same enhancement; in `enhance_related_movie`, an absent poster result
leaves the merged rating unchanged, but a poster timeout (a raise, not
absence) resets `rating` to 0. -/
theorem C2_no_blanking (k : String) (mv mv2 : Movie) (rl : RatingsData)
    (it : SearchItem) (m : Movie) (s : StatsData)
    (him : it.movie = some m) (hs : s ≠ []) (hr : rl ≠ []) :
    (enhance_related_movie ⟨some k⟩
        ⟨Except.ok (NetOutcome.success rl), Except.ok NetOutcome.failure⟩ mv
      = { base := mv, rating := some rl.getRating, posterUrl := none })
    ∧ (enhance_related_movie ⟨some k⟩
        ⟨Except.ok (NetOutcome.success rl), Except.error ()⟩ mv2
      = { base := mv2, rating := some 0, posterUrl := none })
    ∧ (enhance_movie_data ⟨some k⟩
        ⟨Except.ok (NetOutcome.success s), Except.ok (NetOutcome.success rl),
          Except.ok NetOutcome.failure⟩ it
      = some { base := it, stats := some s, ratings := some rl, posterUrl := none })
    ∧ (enhance_movie_data ⟨some k⟩
        ⟨Except.ok (NetOutcome.success s), Except.ok (NetOutcome.success rl),
          Except.error ()⟩ it
      = some { base := it, stats := some s, ratings := some rl,
               posterUrl := none }) := by
  have hs' : s.isEmpty = false := by
    cases s with
    | nil => exact absurd rfl hs
    | cons a t => rfl
  have hr' : rl.isEmpty = false := by
    cases rl with
    | nil => exact absurd rfl hr
    | cons a t => rfl
  refine ⟨?_, ?_, ?_, ?_⟩ <;>
    simp [enhance_related_movie, enhance_movie_data, him, truthyMap,
      make_trakt_request, make_tmdb_request, posterFromTmdb, hs', hr',
      ratings_default_if_empty]

/-- C2 witness. -/
theorem C2_no_blanking_witness :
    (SearchItem.mk (some ⟨1, "a", none⟩)).movie = some ⟨1, "a", none⟩
    ∧ ([("watchers", 5)] : StatsData) ≠ []
    ∧ ([("rating", 8)] : RatingsData) ≠ []
    ∧ enhance_related_movie ⟨some "tk"⟩
        ⟨Except.ok (NetOutcome.success [("rating", 8)]), Except.ok NetOutcome.failure⟩
        ⟨2, "b", none⟩
      = { base := ⟨2, "b", none⟩,
          rating := some (RatingsData.getRating [("rating", 8)]),
          posterUrl := none } :=
  ⟨rfl, by decide, by decide,
    (C2_no_blanking "tk" ⟨2, "b", none⟩ ⟨3, "c", none⟩ [("rating", 8)]
      ⟨some ⟨1, "a", none⟩⟩ ⟨1, "a", none⟩ [("watchers", 5)] rfl (by decide)
      (by decide)).1⟩

/-! ### Helper lemmas about the batch collection loops -/

theorem collectSearchAux_length_le (cfg : Config) (env : Nat → Option EnhanceEnv) :
    ∀ (ms : List SearchItem) (n : Nat),
      (collectSearchAux cfg env n ms).length ≤ ms.length := by
  intro ms
  induction ms with
  | nil => intro n; exact Nat.le_refl 0
  | cons it rest ih =>
    intro n
    simp only [collectSearchAux]
    split
    · exact Nat.le_succ_of_le (ih (n + 1))
    · simpa using ih (n + 1)

theorem collectRelatedAux_length_le (cfg : Config) (env : Nat → Option RelatedEnv) :
    ∀ (ms : List Movie) (n : Nat),
      (collectRelatedAux cfg env n ms).length ≤ ms.length := by
  intro ms
  induction ms with
  | nil => intro n; exact Nat.le_refl 0
  | cons mv rest ih =>
    intro n
    simp only [collectRelatedAux]
    split
    · exact Nat.le_succ_of_le (ih (n + 1))
    · simpa using ih (n + 1)

/-- The bases of the collected search records form an order-preserving
subselection of the input entries: drops never reorder. -/
theorem collectSearchAux_base_sublist (cfg : Config) (env : Nat → Option EnhanceEnv) :
    ∀ (ms : List SearchItem) (n : Nat),
      List.Sublist ((collectSearchAux cfg env n ms).map (fun r => r.base)) ms := by
  intro ms
  induction ms with
  | nil => intro n; simp [collectSearchAux]
  | cons it rest ih =>
    intro n
    simp only [collectSearchAux]
    split
    · exact List.Sublist.cons it (ih (n + 1))
    · next r h =>
      obtain ⟨e, _, he⟩ := Option.bind_eq_some.mp h
      rw [List.map_cons, enhance_movie_data_keeps_base cfg e it r he]
      exact List.Sublist.cons₂ it (ih (n + 1))

theorem collectRelatedAux_base_sublist (cfg : Config) (env : Nat → Option RelatedEnv) :
    ∀ (ms : List Movie) (n : Nat),
      List.Sublist ((collectRelatedAux cfg env n ms).map (fun r => r.base)) ms := by
  intro ms
  induction ms with
  | nil => intro n; simp [collectRelatedAux]
  | cons mv rest ih =>
    intro n
    simp only [collectRelatedAux]
    split
    · exact List.Sublist.cons mv (ih (n + 1))
    · next r h =>
      obtain ⟨e, _, he⟩ := Option.map_eq_some'.mp h
      rw [List.map_cons, ← he, enhance_related_movie_keeps_base cfg e mv]
      exact List.Sublist.cons₂ mv (ih (n + 1))

/-- When every batch-level wait completes and every entry is
movie-tagged, the loop keeps one record per entry, in input order. -/
theorem collectSearchAux_complete (cfg : Config) (E : Nat → EnhanceEnv) :
    ∀ (ms : List SearchItem) (n : Nat), (∀ it ∈ ms, it.movie.isSome = true) →
      (collectSearchAux cfg (fun i => some (E i)) n ms).map (fun r => r.base) = ms := by
  intro ms
  induction ms with
  | nil => intro n _; rfl
  | cons it rest ih =>
    intro n htag
    obtain ⟨r, hr⟩ := enhance_movie_data_total cfg (E n) it (htag it (List.mem_cons_self it rest))
    simp only [collectSearchAux, Option.some_bind, hr, List.map_cons]
    rw [enhance_movie_data_keeps_base cfg (E n) it r hr,
      ih (n + 1) (fun x hx => htag x (List.mem_cons_of_mem _ hx))]

theorem collectRelatedAux_complete (cfg : Config) (RE : Nat → RelatedEnv) :
    ∀ (ms : List Movie) (n : Nat),
      (collectRelatedAux cfg (fun i => some (RE i)) n ms).map (fun r => r.base) = ms := by
  intro ms
  induction ms with
  | nil => intro n; rfl
  | cons mv rest ih =>
    intro n
    simp only [collectRelatedAux, Option.map_some', List.map_cons]
    rw [enhance_related_movie_keeps_base cfg (RE n) mv, ih (n + 1)]

/-! ### Claim theorems: batch endpoints -/

/-- C3 counterexample: two movie-tagged entries, and the second entry's
batch-level wait raises (`future.result(timeout=5)` at line 171); the
loop logs and continues, so the output has one record while the
truncated input has two — the output is not "exactly the truncated input
list, enhanced, regardless of per-entry enhancement outcomes". -/
theorem C3_counterexample :
    search_movies ⟨none⟩ "q"
      (NetOutcome.success [⟨some ⟨1, "a", none⟩⟩, ⟨some ⟨2, "b", none⟩⟩])
      (fun i => if i = 0 then
        some ⟨Except.ok NetOutcome.failure, Except.ok NetOutcome.failure,
          Except.ok NetOutcome.failure⟩ else none)
      = ⟨200, RespBody.items [{ base := ⟨some ⟨1, "a", none⟩⟩ }], 1⟩
    ∧ ([{ base := ⟨some ⟨1, "a", none⟩⟩ }] : List EnhancedItem).length
      ≠ ((([⟨some ⟨1, "a", none⟩⟩, ⟨some ⟨2, "b", none⟩⟩] : List SearchItem).filter
          (fun it => it.movie.isSome)).take 10).length := by
  exact ⟨by decide, by decide⟩

/-- C3 amended: every batch output respects the truncation limit (10 for
search, 8 for related) and is an order-preserving subselection of the
truncated primary list (drops are possible when a batch-level wait
raises, but never reorder); when every batch-level wait completes, the
output carries exactly one record per truncated entry, in input order. -/
theorem C3_order_and_length (cfg : Config) (q : String) (data : List SearchItem)
    (env : Nat → Option EnhanceEnv) (E : Nat → EnhanceEnv)
    (rdata : List Movie) (renv : Nat → Option RelatedEnv) (RE : Nat → RelatedEnv)
    (hq : pyStrip q ≠ "") :
    (∃ l, (search_movies cfg q (NetOutcome.success data) env).body = RespBody.items l
      ∧ l.length ≤ 10
      ∧ List.Sublist (l.map (fun r => r.base))
          ((data.filter (fun it => it.movie.isSome)).take 10))
    ∧ (∃ l, (search_movies cfg q (NetOutcome.success data)
          (fun i => some (E i))).body = RespBody.items l
      ∧ l.map (fun r => r.base) = (data.filter (fun it => it.movie.isSome)).take 10)
    ∧ (∃ l, (get_related_movies cfg (NetOutcome.success rdata) renv).snd
        = RespBody.relatedItems l
      ∧ l.length ≤ 8 ∧ List.Sublist (l.map (fun r => r.base)) (rdata.take 8))
    ∧ (∃ l, (get_related_movies cfg (NetOutcome.success rdata)
          (fun i => some (RE i))).snd = RespBody.relatedItems l
      ∧ l.map (fun r => r.base) = rdata.take 8) := by
  have hsearch : ∀ env' : Nat → Option EnhanceEnv,
      (search_movies cfg q (NetOutcome.success data) env').body
        = RespBody.items (if data.isEmpty then [] else
            collectSearch cfg env' ((data.filter (fun it => it.movie.isSome)).take 10)) := by
    intro env'
    simp only [search_movies, make_trakt_request, if_neg hq]
    split <;> rfl
  have hrel : ∀ renv' : Nat → Option RelatedEnv,
      (get_related_movies cfg (NetOutcome.success rdata) renv').snd
        = RespBody.relatedItems (if rdata.isEmpty then [] else
            collectRelated cfg renv' (rdata.take 8)) := by
    intro renv'
    simp only [get_related_movies, make_trakt_request]
    split <;> rfl
  refine ⟨⟨_, hsearch env, ?_, ?_⟩, ⟨_, hsearch (fun i => some (E i)), ?_⟩,
    ⟨_, hrel renv, ?_, ?_⟩, ⟨_, hrel (fun i => some (RE i)), ?_⟩⟩
  · split
    · simp
    · exact Nat.le_trans
        (collectSearchAux_length_le cfg env _ 0)
        (List.length_take_le _ _)
  · split
    · simp
    · exact collectSearchAux_base_sublist cfg env _ 0
  · split
    · next hd => simp [List.isEmpty_iff.mp hd]
    · refine collectSearchAux_complete cfg E _ 0 (fun x hx => ?_)
      have hmem : x ∈ data.filter (fun it => it.movie.isSome) :=
        List.take_subset 10 _ hx
      simpa using List.of_mem_filter hmem
  · split
    · simp
    · exact Nat.le_trans
        (collectRelatedAux_length_le cfg renv _ 0)
        (List.length_take_le _ _)
  · split
    · simp
    · exact collectRelatedAux_base_sublist cfg renv _ 0
  · split
    · next hd => simp [List.isEmpty_iff.mp hd]
    · exact collectRelatedAux_complete cfg RE _ 0

/-- C3 witness. -/
theorem C3_order_and_length_witness :
    (pyStrip "q" ≠ "")
    ∧ ((∃ l, (search_movies ⟨none⟩ "q"
          (NetOutcome.success [⟨some ⟨1, "a", none⟩⟩]) (fun _ => none)).body
            = RespBody.items l
        ∧ l.length ≤ 10
        ∧ List.Sublist (l.map (fun r => r.base))
            ((([⟨some ⟨1, "a", none⟩⟩] : List SearchItem).filter
              (fun it => it.movie.isSome)).take 10))
      ∧ (∃ l, (search_movies ⟨none⟩ "q"
            (NetOutcome.success [⟨some ⟨1, "a", none⟩⟩])
            (fun i => some (⟨Except.error (), Except.error (), Except.error ()⟩ :
              EnhanceEnv))).body = RespBody.items l
        ∧ l.map (fun r => r.base)
          = (([⟨some ⟨1, "a", none⟩⟩] : List SearchItem).filter
              (fun it => it.movie.isSome)).take 10)
      ∧ (∃ l, (get_related_movies ⟨none⟩
            (NetOutcome.success [⟨2, "b", none⟩]) (fun _ => none)).snd
            = RespBody.relatedItems l
        ∧ l.length ≤ 8
        ∧ List.Sublist (l.map (fun r => r.base))
            (([⟨2, "b", none⟩] : List Movie).take 8))
      ∧ (∃ l, (get_related_movies ⟨none⟩
            (NetOutcome.success [⟨2, "b", none⟩])
            (fun i => some (⟨Except.error (), Except.error ()⟩ : RelatedEnv))).snd
            = RespBody.relatedItems l
        ∧ l.map (fun r => r.base) = ([⟨2, "b", none⟩] : List Movie).take 8)) :=
  ⟨by decide,
    C3_order_and_length ⟨none⟩ "q" [⟨some ⟨1, "a", none⟩⟩] (fun _ => none)
      (fun _ => ⟨Except.error (), Except.error (), Except.error ()⟩)
      [⟨2, "b", none⟩] (fun _ => none) (fun _ => ⟨Except.error (), Except.error ()⟩)
      (by decide)⟩

/-- C7: scenario — the primary search returns 12 movie-tagged entries
and every enhancement completes.  The full search endpoint returns
exactly 10 enhanced entries in the original relative order (record k's
base is input entry k), and the fast search endpoint returns all 12 raw
entries verbatim. -/
theorem C7_twelve_entry_scenario (cfg : Config) (q : String)
    (data : List SearchItem) (E : Nat → EnhanceEnv)
    (hq : pyStrip q ≠ "") (htag : ∀ it ∈ data, it.movie.isSome = true)
    (hlen : data.length = 12) :
    (∃ l, search_movies cfg q (NetOutcome.success data) (fun i => some (E i))
        = ⟨200, RespBody.items l, 1⟩
      ∧ l.length = 10 ∧ l.map (fun r => r.base) = data.take 10)
    ∧ search_movies_fast q (NetOutcome.success data)
        = ⟨200, RespBody.rawItems data, 1⟩
    ∧ data.length = 12 := by
  have hfilter : data.filter (fun it => it.movie.isSome) = data :=
    List.filter_eq_self.mpr htag
  have hne : data.isEmpty = false := by
    cases data with
    | nil => simp at hlen
    | cons a t => rfl
  have hmap : (collectSearch cfg (fun i => some (E i)) (data.take 10)).map
      (fun r => r.base) = data.take 10 :=
    collectSearchAux_complete cfg E (data.take 10) 0
      (fun x hx => htag x (List.take_subset 10 data hx))
  refine ⟨⟨collectSearch cfg (fun i => some (E i)) (data.take 10), ?_, ?_, hmap⟩,
    ?_, hlen⟩
  · simp [search_movies, make_trakt_request, if_neg hq, hne, hfilter]
  · have := congrArg List.length hmap
    simpa [List.length_take, hlen] using this
  · have htake : data.take 15 = data :=
      List.take_of_length_le (by rw [hlen]; norm_num)
    simp [search_movies_fast, make_trakt_request, if_neg hq, hne, hfilter, htake]

/-- C7 witness. -/
theorem C7_twelve_entry_scenario_witness :
    (pyStrip "batman" ≠ "")
    ∧ (∀ it ∈ List.replicate 12 (⟨some ⟨1, "a", none⟩⟩ : SearchItem),
        it.movie.isSome = true)
    ∧ ((∃ l, search_movies ⟨none⟩ "batman"
          (NetOutcome.success (List.replicate 12 ⟨some ⟨1, "a", none⟩⟩))
          (fun i => some ((fun _ => (⟨Except.error (), Except.error (),
            Except.error ()⟩ : EnhanceEnv)) i))
          = ⟨200, RespBody.items l, 1⟩
        ∧ l.length = 10
        ∧ l.map (fun r => r.base)
          = (List.replicate 12 (⟨some ⟨1, "a", none⟩⟩ : SearchItem)).take 10)
      ∧ search_movies_fast "batman"
          (NetOutcome.success (List.replicate 12 ⟨some ⟨1, "a", none⟩⟩))
          = ⟨200, RespBody.rawItems (List.replicate 12 ⟨some ⟨1, "a", none⟩⟩), 1⟩
      ∧ (List.replicate 12 (⟨some ⟨1, "a", none⟩⟩ : SearchItem)).length = 12) :=
  ⟨by decide, by decide,
    C7_twelve_entry_scenario ⟨none⟩ "batman"
      (List.replicate 12 ⟨some ⟨1, "a", none⟩⟩)
      (fun _ => ⟨Except.error (), Except.error (), Except.error ()⟩)
      (by decide) (by decide) (by decide)⟩

/-- C8 counterexample: a primary response with one non-movie entry.  The
fast endpoint filters to movie-tagged entries before truncating, so the
output is empty rather than the first 15 elements verbatim. -/
theorem C8_counterexample :
    search_movies_fast "q" (NetOutcome.success [⟨none⟩])
      = ⟨200, RespBody.rawItems [], 1⟩
    ∧ ([(⟨none⟩ : SearchItem)].take 15 = [⟨none⟩])
    ∧ RespBody.rawItems [] ≠ RespBody.rawItems [(⟨none⟩ : SearchItem)] := by
  exact ⟨by decide, by decide, by decide⟩

/-- C8 amended: the fast search endpoint returns the movie-tagged
entries of the primary response, in order, truncated to the first 15,
with no enhancement; the output never exceeds 15 entries. -/
theorem C8_fast_filtered (q : String) (data : List SearchItem)
    (hq : pyStrip q ≠ "") :
    search_movies_fast q (NetOutcome.success data)
      = ⟨200, RespBody.rawItems
          ((data.filter (fun it => it.movie.isSome)).take 15), 1⟩
    ∧ ((data.filter (fun it => it.movie.isSome)).take 15).length ≤ 15 := by
  constructor
  · by_cases hd : data.isEmpty = true
    · have hnil : data = [] := List.isEmpty_iff.mp hd
      subst hnil
      simp [search_movies_fast, make_trakt_request, if_neg hq]
    · simp [search_movies_fast, make_trakt_request, if_neg hq, hd]
  · exact List.length_take_le _ _

/-- C8 witness. -/
theorem C8_fast_filtered_witness :
    (pyStrip "q" ≠ "")
    ∧ (search_movies_fast "q" (NetOutcome.success [⟨some ⟨1, "a", none⟩⟩, ⟨none⟩])
        = ⟨200, RespBody.rawItems
            ((([⟨some ⟨1, "a", none⟩⟩, ⟨none⟩] : List SearchItem).filter
              (fun it => it.movie.isSome)).take 15), 1⟩
      ∧ ((([⟨some ⟨1, "a", none⟩⟩, ⟨none⟩] : List SearchItem).filter
          (fun it => it.movie.isSome)).take 15).length ≤ 15) :=
  ⟨by decide, C8_fast_filtered "q" [⟨some ⟨1, "a", none⟩⟩, ⟨none⟩] (by decide)⟩

/-- C9: a missing or blank (after stripping) query parameter yields a
400 client error with a message on both search endpoints, with no
upstream call issued, and this outcome is distinct from the 500 used
for upstream failure. -/
theorem C9_blank_query (cfg : Config) (q : String)
    (net : NetOutcome (List SearchItem)) (env : Nat → Option EnhanceEnv)
    (hq : pyStrip q = "") :
    search_movies cfg q net env
      = ⟨400, RespBody.errMsg "Query parameter is required", 0⟩
    ∧ search_movies_fast q net
      = ⟨400, RespBody.errMsg "Query parameter is required", 0⟩
    ∧ (search_movies cfg q net env).status ≠ 500
    ∧ (search_movies cfg q net env).traktCalls = 0 := by
  have h1 : search_movies cfg q net env
      = ⟨400, RespBody.errMsg "Query parameter is required", 0⟩ := by
    simp [search_movies, hq]
  have h2 : search_movies_fast q net
      = ⟨400, RespBody.errMsg "Query parameter is required", 0⟩ := by
    simp [search_movies_fast, hq]
  refine ⟨h1, h2, ?_, ?_⟩
  · rw [h1]; decide
  · rw [h1]

/-- C9 witness (a whitespace-only query, blank after stripping). -/
theorem C9_blank_query_witness :
    (pyStrip " " = "")
    ∧ (search_movies ⟨none⟩ " " NetOutcome.failure (fun _ => none)
        = ⟨400, RespBody.errMsg "Query parameter is required", 0⟩
      ∧ search_movies_fast " " NetOutcome.failure
        = ⟨400, RespBody.errMsg "Query parameter is required", 0⟩
      ∧ (search_movies ⟨none⟩ " " NetOutcome.failure (fun _ => none)).status ≠ 500
      ∧ (search_movies ⟨none⟩ " " NetOutcome.failure (fun _ => none)).traktCalls = 0) :=
  ⟨by decide, C9_blank_query ⟨none⟩ " " NetOutcome.failure (fun _ => none) (by decide)⟩

end CinemaTec
